import Mathlib

/-
Verification of the Please RPC cache server.

Part 1 embeds the startup sequence of src/tools/cache/rpc_server_main.go
as a trace of observable events (configuration validation, cache and
cluster construction, HTTP status endpoint setup, gRPC server build and
serve).  `log.Fatalf` terminates the process, so a fatal event ends the
trace.

Part 2 models the artifact store and the evictor's size pass.  Their code
(packages tools/cache/server and tools/cache/cluster) is not part of the
available sources, so those definitions are modelled from the spec, as
marked in their doc comments.
-/

/-- Startup options of the cache server, mirroring the `opts` struct of
src/tools/cache/rpc_server_main.go with the flag defaults. -/
structure Opts where
  port : Nat := 7677
  httpPort : Nat := 0
  metricsPort : Nat := 0
  dir : String := "plz-rpc-cache"
  lowWaterMark : Nat := 18000000000
  highWaterMark : Nat := 20000000000
  cleanFrequency : Nat := 600
  maxArtifactAge : Nat := 2592000
  keyFile : String := ""
  certFile : String := ""
  caCertFile : String := ""
  writableCerts : String := ""
  readonlyCerts : String := ""
  clusterPort : Nat := 7946
  clusterAddresses : String := ""
  seedCluster : Bool := false
  clusterSize : Int := 0
  nodeName : String := ""
  seedIf : String := ""
  advertiseAddr : String := ""

/-- How the cluster object was created: `cluster.NewCluster` followed by
either `Init` (seeding, with the expected cluster size) or `Join` (with the
split list of peer addresses). -/
inductive ClusterAction where
  | init (size : Int)
  | join (addrs : List String)
deriving DecidableEq

/-- Observable startup events of `main`, in program order.  `buildGrpc`
carries the cluster argument passed to `server.BuildGrpcServer` (`none`
models a nil cluster pointer). -/
inductive Event where
  | newCache (dir : String)
  | clusterEvent (a : ClusterAction)
  | httpStatus (port : Nat) (tls : Bool)
  | buildGrpc (cluster : Option ClusterAction)
  | serveMetrics (port : Nat)
  | serveGrpc
  | fatal (msg : String)
deriving DecidableEq

def Event.isFatal : Event → Bool
  | .fatal _ => true
  | _ => false

def Event.isClusterEvent : Event → Bool
  | .clusterEvent _ => true
  | _ => false

def Event.isInit : Event → Bool
  | .clusterEvent (.init _) => true
  | _ => false

def Event.isJoin : Event → Bool
  | .clusterEvent (.join _) => true
  | _ => false

/-- Condition of the first TLS check (line 63): exactly one of
`--key_file` and `--cert_file` was passed. -/
def tlsFatal1 (o : Opts) : Bool :=
  (o.keyFile == "") != (o.certFile == "")

/-- Condition of the second TLS check (line 65): client trust sets given
without server TLS. -/
def tlsFatal2 (o : Opts) : Bool :=
  o.keyFile == "" && (o.writableCerts != "" || o.readonlyCerts != "")

/-- Both startup TLS checks pass. -/
def tlsOk (o : Opts) : Bool :=
  !(tlsFatal1 o) && !(tlsFatal2 o)

def msgKeyCert : String :=
  "Must pass both --key_file and --cert_file if you pass one"

def msgCertsNeedTLS : String :=
  "You can only use --writable_certs / --readonly_certs with https (--key_file and --cert_file)"

def msgClusterSize : String :=
  "You must pass a cluster size of > 1 when initialising the seed node."

/-- Effective value of `SeedCluster` after the `--seed_if` override
(lines 75-78): when `SeedIf` is nonempty and equals `NodeName`,
`SeedCluster` is overwritten with whether `net.LookupIP` on the raw
cluster-addresses string failed or returned no IPs.  `lookupIP` models
`net.LookupIP`, with `none` for a resolution error. -/
def effectiveSeed (o : Opts) (lookupIP : String → Option (List String)) : Bool :=
  if o.seedIf != "" && o.seedIf == o.nodeName then
    match lookupIP o.clusterAddresses with
    | none => true
    | some ips => ips.isEmpty
  else o.seedCluster

/-- Events from line 90 on: optional HTTP status endpoint (TLS exactly when
a key file is configured), the gRPC server build with the cluster argument,
optional metrics endpoint, then serving. -/
def afterCluster (o : Opts) (cl : Option ClusterAction) : List Event :=
  (if o.httpPort != 0 then [Event.httpStatus o.httpPort (o.keyFile != "")] else []) ++
  Event.buildGrpc cl ::
    ((if o.metricsPort != 0 then [Event.serveMetrics o.metricsPort] else []) ++
      [Event.serveGrpc])

/-- Cluster decision of lines 79-88: seed (fatal if the cluster size is
below 2), else join when peer addresses were given, else no cluster. -/
def clusterPhase (o : Opts) (lookupIP : String → Option (List String)) : List Event :=
  if effectiveSeed o lookupIP then
    if o.clusterSize < 2 then
      [Event.fatal msgClusterSize]
    else
      Event.clusterEvent (ClusterAction.init o.clusterSize) ::
        afterCluster o (some (ClusterAction.init o.clusterSize))
  else if o.clusterAddresses != "" then
    Event.clusterEvent (ClusterAction.join (o.clusterAddresses.splitOn ",")) ::
      afterCluster o (some (ClusterAction.join (o.clusterAddresses.splitOn ",")))
  else
    afterCluster o none

/-- Startup event trace of `main` (lines 57-120): the two TLS checks, then
cache construction, the cluster phase and the serving phase.  A `fatal`
event ends the trace, as `log.Fatalf` exits the process. -/
def mainTrace (o : Opts) (lookupIP : String → Option (List String)) : List Event :=
  if tlsFatal1 o then [Event.fatal msgKeyCert]
  else if tlsFatal2 o then [Event.fatal msgCertsNeedTLS]
  else Event.newCache o.dir :: clusterPhase o lookupIP

/-- Modelled from the spec: an artifact of the ArtifactStore (§3, §4.1),
whose code (tools/cache/server) is absent from the available sources.
Holds the payload bytes, the creation timestamp and the last-access
timestamp; its size is the payload length. -/
structure Artifact where
  payload : List Nat
  created : Nat
  lastAccess : Nat
deriving DecidableEq

/-- Modelled from the spec: the ArtifactStore state, a finite map from
keys to artifacts, represented as an association list. -/
abbrev Cache := List (String × Artifact)

/-- Association-list lookup of a key in the store. -/
def findArtifact (c : Cache) (k : String) : Option Artifact :=
  match c with
  | [] => none
  | e :: rest => if e.1 = k then some e.2 else findArtifact rest k

/-- Modelled from the spec: `Put(key, payload)` (§4.1) stores the payload
under the key atomically; overwrites are last-write-wins. -/
def Store (c : Cache) (k : String) (p : List Nat) (now : Nat) : Cache :=
  (k, { payload := p, created := now, lastAccess := now }) ::
    c.filter (fun e => e.1 != k)

/-- Modelled from the spec: `Get(key)` (§4.1) returns the payload bytes or
`none` for NotFound, and on success updates the key's last-access
timestamp. -/
def Retrieve (c : Cache) (k : String) (now : Nat) : Option (List Nat) × Cache :=
  match findArtifact c k with
  | none => (none, c)
  | some a =>
    (some a.payload,
      c.map (fun e => if e.1 = k then (e.1, { e.2 with lastAccess := now }) else e))

/-- Modelled from the spec: error taxonomy of §7 as far as the store
contract needs it. -/
inductive CacheError where
  | notFound
  | storageError
deriving DecidableEq

/-- Modelled from the spec: `Delete(key)` (§4.1) removes the artifact;
deleting an absent key is a no-op that still reports success. -/
def Delete (c : Cache) (k : String) : Except CacheError Cache :=
  Except.ok (c.filter (fun e => e.1 != k))

/-- Modelled from the spec: aggregate size, the sum of all resident
artifact sizes (§3 invariants; `cache.TotalSize()` at line 93). -/
def TotalSize (c : Cache) : Nat :=
  (c.map (fun e => e.2.payload.length)).sum

/-- Modelled from the spec: the artifact count (`cache.NumFiles()` at
line 93). -/
def NumFiles (c : Cache) : Nat := c.length

/-- Modelled from the spec: `Stat()` (§4.1) returns aggregate size and
artifact count for external reporting. -/
def Stat (c : Cache) : Nat × Nat := (TotalSize c, NumFiles c)

/-- Rendering of a `Stat` result as the status page text. -/
def statusRender (sn : Nat × Nat) : String :=
  "Total size: " ++ toString sn.1 ++ " bytes\nNum files: " ++ toString sn.2 ++ "\n"

/-- Body written by the HTTP status handler (line 93), formatting the
cache's aggregate size and artifact count. -/
def statusBody (c : Cache) : String :=
  "Total size: " ++ toString (TotalSize c) ++ " bytes\nNum files: " ++ toString (NumFiles c) ++ "\n"

/-- A single `Store` request, for sequences of interleaved stores. -/
structure StoreOp where
  key : String
  payload : List Nat
  time : Nat

/-- Applies a sequence of `Store` requests in order. -/
def applyStores (c : Cache) (ops : List StoreOp) : Cache :=
  ops.foldl (fun acc op => Store acc op.key op.payload op.time) c

/-- Modelled from the spec: the eviction order of the size pass (§4.2),
ascending last-access time with ties broken by key order. -/
def accessLe (a b : String × Artifact) : Prop :=
  a.2.lastAccess < b.2.lastAccess ∨
    (a.2.lastAccess = b.2.lastAccess ∧ a.1 ≤ b.1)

instance : DecidableRel accessLe := fun a b => by
  unfold accessLe
  infer_instance

instance : IsTotal (String × Artifact) accessLe := by
  constructor
  intro a b
  unfold accessLe
  rcases Nat.lt_trichotomy a.2.lastAccess b.2.lastAccess with h | h | h
  · exact Or.inl (Or.inl h)
  · rcases le_total a.1 b.1 with h' | h'
    · exact Or.inl (Or.inr ⟨h, h'⟩)
    · exact Or.inr (Or.inr ⟨h.symm, h'⟩)
  · exact Or.inr (Or.inl h)

instance : IsTrans (String × Artifact) accessLe := by
  constructor
  intro a b c hab hbc
  unfold accessLe at hab hbc ⊢
  rcases hab with h1 | ⟨h1, h1'⟩ <;> rcases hbc with h2 | ⟨h2, h2'⟩
  · exact Or.inl (h1.trans h2)
  · exact Or.inl (h2 ▸ h1)
  · exact Or.inl (h1 ▸ h2)
  · exact Or.inr ⟨h1.trans h2, le_trans h1' h2'⟩

/-- Artifact listing sorted into eviction order. -/
def sortByAccess (c : Cache) : Cache :=
  List.insertionSort accessLe c

/-- Modelled from the spec: the deletion loop of the size pass (§4.2 step
3), deleting least-recently-used artifacts until aggregate size is at or
below the low water mark. -/
def evictUntil (low : Nat) : Cache → Cache
  | [] => []
  | e :: rest =>
    if TotalSize (e :: rest) ≤ low then e :: rest
    else evictUntil low rest

/-- Modelled from the spec: the size pass of one eviction cycle (§4.2 step
3), run only when aggregate size exceeds the high water mark. -/
def sizePass (high low : Nat) (c : Cache) : Cache :=
  if high < TotalSize c then evictUntil low (sortByAccess c) else c

/-! Helper lemmas about the store. -/

theorem findArtifact_filter_ne (c : Cache) (k k' : String) (h : k ≠ k') :
    findArtifact (c.filter (fun e => e.1 != k')) k = findArtifact c k := by
  induction c with
  | nil => rfl
  | cons e rest ih =>
    by_cases he : e.1 = k'
    · have hb : (e.1 != k') = false := by simp [he]
      have hek : ¬(e.1 = k) := fun hk => h (hk.symm.trans he)
      simp only [List.filter_cons, hb, if_false, Bool.false_eq_true, findArtifact]
      rw [if_neg hek]
      exact ih
    · have hb : (e.1 != k') = true := by simp [he]
      simp only [List.filter_cons, hb, if_true, findArtifact]
      by_cases hk : e.1 = k
      · simp [hk]
      · simp [hk, ih]

theorem findArtifact_store_self (c : Cache) (k : String) (p : List Nat) (t : Nat) :
    findArtifact (Store c k p t) k =
      some { payload := p, created := t, lastAccess := t } := by
  simp [Store, findArtifact]

theorem findArtifact_store_ne (c : Cache) (k k' : String) (p : List Nat) (t : Nat)
    (h : k ≠ k') :
    findArtifact (Store c k' p t) k = findArtifact c k := by
  simp only [Store, findArtifact]
  rw [if_neg (fun hk : k' = k => h hk.symm)]
  exact findArtifact_filter_ne c k k' h

theorem findArtifact_applyStores (c : Cache) (ops : List StoreOp) (k : String)
    (h : ∀ op ∈ ops, op.key ≠ k) :
    findArtifact (applyStores c ops) k = findArtifact c k := by
  induction ops generalizing c with
  | nil => rfl
  | cons op ops ih =>
    have hop : op.key ≠ k := h op (List.mem_cons_self op ops)
    calc findArtifact (applyStores (Store c op.key op.payload op.time) ops) k
        = findArtifact (Store c op.key op.payload op.time) k :=
          ih _ (fun o ho => h o (List.mem_cons_of_mem op ho))
      _ = findArtifact c k :=
          findArtifact_store_ne c k op.key op.payload op.time (fun hk => hop hk.symm)

/-- C1: for every key and payload, performing Store(key, payload) and then
immediately Retrieve(key) returns exactly the stored payload, independent
of concurrent unrelated Store calls on other keys (modelled as an
arbitrary sequence of Store requests on other keys interleaved between the
Store and the Retrieve). -/
theorem c1_store_retrieve_round_trip (c : Cache) (k : String) (p : List Nat)
    (now now' : Nat) (ops : List StoreOp) (h : ∀ op ∈ ops, op.key ≠ k) :
    (Retrieve (applyStores (Store c k p now) ops) k now').1 = some p := by
  unfold Retrieve
  rw [findArtifact_applyStores _ _ _ h, findArtifact_store_self]

theorem c1_store_retrieve_round_trip_witness :
    (∀ op ∈ [{ key := "other", payload := [9, 9], time := 4 : StoreOp }], op.key ≠ "k") ∧
      (Retrieve (applyStores (Store [] "k" [1, 2, 3] 0)
        [{ key := "other", payload := [9, 9], time := 4 }]) "k" 5).1 = some [1, 2, 3] :=
  ⟨by decide,
    c1_store_retrieve_round_trip [] "k" [1, 2, 3] 0 5
      [{ key := "other", payload := [9, 9], time := 4 }] (by decide)⟩

theorem filter_of_findArtifact_none (c : Cache) (k : String)
    (h : findArtifact c k = none) :
    c.filter (fun e => e.1 != k) = c := by
  induction c with
  | nil => rfl
  | cons e rest ih =>
    unfold findArtifact at h
    by_cases he : e.1 = k
    · simp [he] at h
    · have hb : (e.1 != k) = true := by simp [he]
      simp only [List.filter, hb]
      rw [ih (by simpa [he] using h)]

/-- C6: Delete on an absent key is a no-op that reports success rather
than an error, and Delete is idempotent: applying it twice yields the same
state, both calls succeeding. -/
theorem c6_delete_idempotent (c : Cache) (k : String) :
    (findArtifact c k = none → Delete c k = Except.ok c) ∧
      ∃ c', Delete c k = Except.ok c' ∧ Delete c' k = Except.ok c' := by
  constructor
  · intro h
    unfold Delete
    rw [filter_of_findArtifact_none c k h]
  · refine ⟨c.filter (fun e => e.1 != k), rfl, ?_⟩
    unfold Delete
    rw [List.filter_filter]
    congr 1
    apply List.filter_congr
    intro e _
    cases hek : (e.1 != k) <;> simp [hek]

theorem c6_delete_idempotent_witness :
    (Delete ([] : Cache) "k" = Except.ok []) ∧
      ∃ c', Delete ([("a", { payload := [1], created := 0, lastAccess := 0 })] : Cache)
          "a" = Except.ok c' ∧ Delete c' "a" = Except.ok c' :=
  ⟨(c6_delete_idempotent [] "k").1 rfl,
    (c6_delete_idempotent [("a", { payload := [1], created := 0, lastAccess := 0 })] "a").2⟩

/-! Helper lemmas about the size pass. -/

theorem totalSize_perm {c₁ c₂ : Cache} (h : c₁.Perm c₂) :
    TotalSize c₁ = TotalSize c₂ := by
  unfold TotalSize
  exact (h.map (fun e => e.2.payload.length)).sum_eq

theorem evictUntil_le (low : Nat) (l : Cache) :
    TotalSize (evictUntil low l) ≤ low := by
  induction l with
  | nil => simp [evictUntil, TotalSize]
  | cons e rest ih =>
    unfold evictUntil
    split
    · assumption
    · exact ih

theorem evictUntil_drop (low : Nat) (l : Cache) :
    ∃ n, evictUntil low l = l.drop n ∧
      ∀ m, m < n → low < TotalSize (l.drop m) := by
  induction l with
  | nil => exact ⟨0, rfl, fun m hm => absurd hm (Nat.not_lt_zero m)⟩
  | cons e rest ih =>
    by_cases h : TotalSize (e :: rest) ≤ low
    · exact ⟨0, by simp [evictUntil, h], fun m hm => absurd hm (Nat.not_lt_zero m)⟩
    · obtain ⟨n, hn, hmin⟩ := ih
      refine ⟨n + 1, ?_, ?_⟩
      · simpa [evictUntil, h] using hn
      · intro m hm
        cases m with
        | zero => simpa using Nat.lt_of_not_le h
        | succ m' => simpa using hmin m' (by omega)

/-- C5: if the aggregate size exceeds the high water mark at the start of
the size pass, then after the pass the aggregate size is at or below the
low water mark, and the artifacts deleted are exactly the
least-recently-accessed ones needed to reach that threshold: the survivors
are the remainder of the listing sorted in ascending last-access order
(ties broken by key order) after removing the shortest prefix whose
removal brings the size to or below the low water mark. -/
theorem c5_size_pass_eviction (c : Cache) (high low : Nat)
    (h : high < TotalSize c) :
    TotalSize (sizePass high low c) ≤ low ∧
      List.Sorted accessLe (sortByAccess c) ∧
      (sortByAccess c).Perm c ∧
      ∃ n, sizePass high low c = (sortByAccess c).drop n ∧
        ∀ m, m < n → low < TotalSize ((sortByAccess c).drop m) := by
  have hpass : sizePass high low c = evictUntil low (sortByAccess c) := by
    unfold sizePass
    rw [if_pos h]
  refine ⟨?_, ?_, ?_, ?_⟩
  · rw [hpass]
    exact evictUntil_le low (sortByAccess c)
  · exact List.sorted_insertionSort accessLe c
  · exact List.perm_insertionSort accessLe c
  · rw [hpass]
    exact evictUntil_drop low (sortByAccess c)

def c5Cache : Cache :=
  [("b", { payload := [0, 0, 0], created := 0, lastAccess := 5 }),
   ("a", { payload := [0, 0], created := 0, lastAccess := 5 }),
   ("c", { payload := [0, 0, 0, 0], created := 0, lastAccess := 1 })]

theorem c5_size_pass_eviction_witness :
    6 < TotalSize c5Cache ∧
      (TotalSize (sizePass 6 4 c5Cache) ≤ 4 ∧
        List.Sorted accessLe (sortByAccess c5Cache) ∧
        (sortByAccess c5Cache).Perm c5Cache ∧
        ∃ n, sizePass 6 4 c5Cache = (sortByAccess c5Cache).drop n ∧
          ∀ m, m < n → 4 < TotalSize ((sortByAccess c5Cache).drop m)) :=
  ⟨by decide, c5_size_pass_eviction c5Cache 6 4 (by decide)⟩

/-! Helper lemmas about the startup trace. -/

theorem fatal_not_mem_afterCluster (o : Opts) (cl : Option ClusterAction) (m : String) :
    Event.fatal m ∉ afterCluster o cl := by
  unfold afterCluster
  split <;> split <;> simp

theorem serveGrpc_mem_afterCluster (o : Opts) (cl : Option ClusterAction) :
    Event.serveGrpc ∈ afterCluster o cl := by
  unfold afterCluster
  split <;> split <;> simp

theorem buildGrpc_mem_afterCluster (o : Opts) (cl : Option ClusterAction) :
    Event.buildGrpc cl ∈ afterCluster o cl := by
  unfold afterCluster
  split <;> split <;> simp

theorem buildGrpc_not_mem_afterCluster (o : Opts) (cl cl' : Option ClusterAction)
    (h : cl' ≠ cl) : Event.buildGrpc cl' ∉ afterCluster o cl := by
  unfold afterCluster
  split <;> split <;> simp [h]

theorem clusterEvent_not_mem_afterCluster (o : Opts) (cl : Option ClusterAction)
    (a : ClusterAction) : Event.clusterEvent a ∉ afterCluster o cl := by
  unfold afterCluster
  split <;> split <;> simp

theorem httpStatus_mem_afterCluster (o : Opts) (cl : Option ClusterAction)
    (h : o.httpPort ≠ 0) :
    Event.httpStatus o.httpPort (o.keyFile != "") ∈ afterCluster o cl := by
  unfold afterCluster
  rw [if_pos (by simpa using h)]
  simp

theorem mem_afterCluster_httpStatus (o : Opts) (cl : Option ClusterAction)
    (p : Nat) (t : Bool) (h : Event.httpStatus p t ∈ afterCluster o cl) :
    p = o.httpPort ∧ t = (o.keyFile != "") := by
  unfold afterCluster at h
  split at h <;> split at h <;> simp at h <;> exact ⟨h.1, h.2⟩

/-- C7: whenever startup configuration validation fails (a fatal event is
in the trace), the gRPC server is never built and the process never begins
serving: no `buildGrpc` and no `serveGrpc` event occurs in the trace. -/
theorem c7_fatal_before_serving (o : Opts) (lk : String → Option (List String))
    (m : String) (h : Event.fatal m ∈ mainTrace o lk) :
    (∀ cl, Event.buildGrpc cl ∉ mainTrace o lk) ∧
      Event.serveGrpc ∉ mainTrace o lk := by
  unfold mainTrace at h ⊢
  split at h
  · simp_all
  · split at h
    · simp_all
    · unfold clusterPhase at h ⊢
      split at h
      · split at h
        · simp_all
        · rw [List.mem_cons, List.mem_cons] at h
          rcases h with h | h | h
          · exact absurd h (by simp)
          · exact absurd h (by simp)
          · exact absurd h (fatal_not_mem_afterCluster o _ m)
      · split at h
        · rw [List.mem_cons, List.mem_cons] at h
          rcases h with h | h | h
          · exact absurd h (by simp)
          · exact absurd h (by simp)
          · exact absurd h (fatal_not_mem_afterCluster o _ m)
        · rw [List.mem_cons] at h
          rcases h with h | h
          · exact absurd h (by simp)
          · exact absurd h (fatal_not_mem_afterCluster o _ m)

def c7WitnessOpts : Opts := { keyFile := "server.key" }

theorem c7_fatal_before_serving_witness :
    Event.fatal msgKeyCert ∈ mainTrace c7WitnessOpts (fun _ => none) ∧
      ((∀ cl, Event.buildGrpc cl ∉ mainTrace c7WitnessOpts (fun _ => none)) ∧
        Event.serveGrpc ∉ mainTrace c7WitnessOpts (fun _ => none)) :=
  ⟨by decide,
    c7_fatal_before_serving c7WitnessOpts (fun _ => none) msgKeyCert (by decide)⟩

/-- C9: supplying exactly one of the server key file and the server
certificate file is a fatal configuration error: the whole startup trace
is that single fatal event, so neither the cache nor the server is ever
constructed. -/
theorem c9_key_cert_pair_required (o : Opts) (lk : String → Option (List String))
    (h : (o.keyFile = "" ∧ o.certFile ≠ "") ∨ (o.keyFile ≠ "" ∧ o.certFile = "")) :
    mainTrace o lk = [Event.fatal msgKeyCert] := by
  have h1 : tlsFatal1 o = true := by
    unfold tlsFatal1
    rcases h with ⟨ha, hb⟩ | ⟨ha, hb⟩ <;> simp [ha, hb]
  unfold mainTrace
  rw [if_pos h1]

def c9WitnessOpts : Opts := { certFile := "server.crt" }

theorem c9_key_cert_pair_required_witness :
    ((c9WitnessOpts.keyFile = "" ∧ c9WitnessOpts.certFile ≠ "") ∨
      (c9WitnessOpts.keyFile ≠ "" ∧ c9WitnessOpts.certFile = "")) ∧
      mainTrace c9WitnessOpts (fun _ => none) = [Event.fatal msgKeyCert] :=
  ⟨by decide, c9_key_cert_pair_required c9WitnessOpts (fun _ => none) (by decide)⟩

/-- C3: a configuration that supplies a writable-certificates path or a
readonly-certificates path without a complete server key/cert pair fails
at startup: the whole trace is a single fatal event, before the cache or
the gRPC server is constructed, never deferred to runtime. -/
theorem c3_client_certs_require_server_tls (o : Opts)
    (lk : String → Option (List String))
    (hcerts : o.writableCerts ≠ "" ∨ o.readonlyCerts ≠ "")
    (hpair : o.keyFile = "" ∨ o.certFile = "") :
    ∃ m, mainTrace o lk = [Event.fatal m] := by
  by_cases hk : o.keyFile = ""
  · by_cases hc : o.certFile = ""
    · refine ⟨msgCertsNeedTLS, ?_⟩
      have h1 : tlsFatal1 o = false := by
        unfold tlsFatal1
        simp [hk, hc]
      have h2 : tlsFatal2 o = true := by
        unfold tlsFatal2
        rcases hcerts with hw | hr
        · simp [hk, hw]
        · simp [hk, hr]
      unfold mainTrace
      rw [if_neg (by simp [h1]), if_pos h2]
    · exact ⟨msgKeyCert, c9_key_cert_pair_required o lk (Or.inl ⟨hk, hc⟩)⟩
  · have hc : o.certFile = "" := hpair.resolve_left hk
    exact ⟨msgKeyCert, c9_key_cert_pair_required o lk (Or.inr ⟨hk, hc⟩)⟩

def c3WitnessOpts : Opts := { writableCerts := "certs/" }

theorem c3_client_certs_require_server_tls_witness :
    (c3WitnessOpts.writableCerts ≠ "" ∨ c3WitnessOpts.readonlyCerts ≠ "") ∧
      (c3WitnessOpts.keyFile = "" ∨ c3WitnessOpts.certFile = "") ∧
      ∃ m, mainTrace c3WitnessOpts (fun _ => none) = [Event.fatal m] :=
  ⟨by decide, by decide,
    c3_client_certs_require_server_tls c3WitnessOpts (fun _ => none)
      (by decide) (by decide)⟩

theorem all_not_clusterEvent_afterCluster (o : Opts) (cl : Option ClusterAction) :
    ∀ e ∈ afterCluster o cl, e.isClusterEvent = false := by
  intro e he
  cases e with
  | clusterEvent a => exact absurd he (clusterEvent_not_mem_afterCluster o cl a)
  | newCache d => rfl
  | httpStatus p t => rfl
  | buildGrpc c => rfl
  | serveMetrics p => rfl
  | serveGrpc => rfl
  | fatal m => rfl

/-- C10: when, after the seed-if override is applied, seeding is not
requested and the peer cluster address list is empty, no cluster component
is ever created (no cluster event occurs), any gRPC server build receives
a nil cluster, and whenever startup validation passes the gRPC server is
indeed built with a nil cluster, serving purely from the local store. -/
theorem c10_no_cluster_when_unconfigured (o : Opts)
    (lk : String → Option (List String))
    (hseed : effectiveSeed o lk = false) (haddr : o.clusterAddresses = "") :
    ((mainTrace o lk).all (fun e => !e.isClusterEvent) = true) ∧
      (∀ cl, Event.buildGrpc cl ∈ mainTrace o lk → cl = none) ∧
      (tlsOk o = true → Event.buildGrpc none ∈ mainTrace o lk) := by
  have hphase : clusterPhase o lk = afterCluster o none := by
    unfold clusterPhase
    rw [hseed]
    simp [haddr]
  unfold mainTrace
  split
  · refine ⟨by decide, by simp, fun htls => ?_⟩
    rename_i h1
    rw [tlsOk, h1] at htls
    simp at htls
  · split
    · refine ⟨by decide, by simp, fun htls => ?_⟩
      rename_i h1 h2
      rw [tlsOk, h2] at htls
      simp at htls
    · rw [hphase]
      refine ⟨?_, ?_, fun _ => ?_⟩
      · rw [List.all_cons]
        have h := all_not_clusterEvent_afterCluster o none
        refine (Bool.and_eq_true _ _).mpr ⟨rfl, ?_⟩
        rw [List.all_eq_true]
        intro e he
        show (!e.isClusterEvent) = true
        rw [h e he]
        rfl
      · intro cl hcl
        rw [List.mem_cons] at hcl
        rcases hcl with h | h
        · exact absurd h (by simp)
        · by_contra hne
          exact buildGrpc_not_mem_afterCluster o none cl hne h
      · exact List.mem_cons_of_mem _ (buildGrpc_mem_afterCluster o none)

def c10WitnessOpts : Opts := { httpPort := 8080 }

theorem c10_no_cluster_when_unconfigured_witness :
    effectiveSeed c10WitnessOpts (fun _ => none) = false ∧
      c10WitnessOpts.clusterAddresses = "" ∧
      (((mainTrace c10WitnessOpts (fun _ => none)).all
          (fun e => !e.isClusterEvent) = true) ∧
        (∀ cl, Event.buildGrpc cl ∈ mainTrace c10WitnessOpts (fun _ => none) →
          cl = none) ∧
        (tlsOk c10WitnessOpts = true →
          Event.buildGrpc none ∈ mainTrace c10WitnessOpts (fun _ => none))) :=
  ⟨by decide, by decide,
    c10_no_cluster_when_unconfigured c10WitnessOpts (fun _ => none)
      (by decide) (by decide)⟩

/-- C8: when an HTTP status port is configured, every status endpoint in
the startup trace is on exactly that port with TLS enabled exactly when a
server key file is configured; when startup validation passes, the
endpoint is indeed set up; and its body is exactly the rendering of the
cache's `Stat` counters, aggregate size and artifact count. -/
theorem c8_status_endpoint (o : Opts) (lk : String → Option (List String))
    (hp : o.httpPort ≠ 0) :
    (∀ p t, Event.httpStatus p t ∈ mainTrace o lk →
        p = o.httpPort ∧ t = (o.keyFile != "")) ∧
      (tlsOk o = true → (effectiveSeed o lk = true → ¬(o.clusterSize < 2)) →
        Event.httpStatus o.httpPort (o.keyFile != "") ∈ mainTrace o lk) ∧
      (∀ c : Cache, statusBody c = statusRender (Stat c)) := by
  refine ⟨?_, ?_, fun c => rfl⟩
  · intro p t hmem
    unfold mainTrace at hmem
    split at hmem
    · simp at hmem
    · split at hmem
      · simp at hmem
      · rw [List.mem_cons] at hmem
        rcases hmem with h | h
        · exact absurd h (by simp)
        · unfold clusterPhase at h
          split at h
          · split at h
            · simp at h
            · rw [List.mem_cons] at h
              rcases h with h | h
              · exact absurd h (by simp)
              · exact mem_afterCluster_httpStatus o _ p t h
          · split at h
            · rw [List.mem_cons] at h
              rcases h with h | h
              · exact absurd h (by simp)
              · exact mem_afterCluster_httpStatus o _ p t h
            · exact mem_afterCluster_httpStatus o _ p t h
  · intro htls hsize
    rw [tlsOk, Bool.and_eq_true, Bool.not_eq_true', Bool.not_eq_true'] at htls
    obtain ⟨h1, h2⟩ := htls
    unfold mainTrace
    rw [if_neg (by simp [h1]), if_neg (by simp [h2])]
    apply List.mem_cons_of_mem
    unfold clusterPhase
    split
    · rename_i hseed
      rw [if_neg (hsize hseed)]
      exact List.mem_cons_of_mem _ (httpStatus_mem_afterCluster o _ hp)
    · split
      · exact List.mem_cons_of_mem _ (httpStatus_mem_afterCluster o _ hp)
      · exact httpStatus_mem_afterCluster o _ hp

def c8WitnessOpts : Opts :=
  { httpPort := 8080, keyFile := "server.key", certFile := "server.crt" }

theorem c8_status_endpoint_witness :
    c8WitnessOpts.httpPort ≠ 0 ∧
      ((∀ p t, Event.httpStatus p t ∈ mainTrace c8WitnessOpts (fun _ => none) →
          p = c8WitnessOpts.httpPort ∧ t = (c8WitnessOpts.keyFile != "")) ∧
        (tlsOk c8WitnessOpts = true →
          (effectiveSeed c8WitnessOpts (fun _ => none) = true →
            ¬(c8WitnessOpts.clusterSize < 2)) →
          Event.httpStatus c8WitnessOpts.httpPort (c8WitnessOpts.keyFile != "") ∈
            mainTrace c8WitnessOpts (fun _ => none)) ∧
        (∀ c : Cache, statusBody c = statusRender (Stat c))) :=
  ⟨by decide, c8_status_endpoint c8WitnessOpts (fun _ => none) (by decide)⟩

theorem isInit_eq_false_of_isClusterEvent (e : Event)
    (h : e.isClusterEvent = false) : e.isInit = false := by
  cases e with
  | clusterEvent a => simp [Event.isClusterEvent] at h
  | newCache d => rfl
  | httpStatus p t => rfl
  | buildGrpc c => rfl
  | serveMetrics p => rfl
  | serveGrpc => rfl
  | fatal m => rfl

theorem isJoin_eq_false_of_isClusterEvent (e : Event)
    (h : e.isClusterEvent = false) : e.isJoin = false := by
  cases e with
  | clusterEvent a => simp [Event.isClusterEvent] at h
  | newCache d => rfl
  | httpStatus p t => rfl
  | buildGrpc c => rfl
  | serveMetrics p => rfl
  | serveGrpc => rfl
  | fatal m => rfl

def c2CexOpts : Opts :=
  { seedCluster := true, clusterSize := 0, seedIf := "node1",
    nodeName := "node1", clusterAddresses := "peer.example.com" }

def c2CexLookup : String → Option (List String) := fun _ => some ["10.0.0.1"]

/-- C2 counterexample: a configuration with `SeedCluster=true` and
`ClusterSize<2` for which startup does not fail: the `--seed_if` override
matches the node name and the peer addresses resolve, so `SeedCluster` is
overwritten to false, the node joins the cluster and serves, with no fatal
event, contradicting the claim that every such configuration fails at
startup and never begins serving. -/
theorem c2_seed_validation_counterexample :
    c2CexOpts.seedCluster = true ∧ c2CexOpts.clusterSize < 2 ∧
      Event.serveGrpc ∈ mainTrace c2CexOpts c2CexLookup ∧
      (mainTrace c2CexOpts c2CexLookup).all (fun e => !e.isFatal) = true := by
  decide

/-- C2 amended: for every startup configuration whose effective seeding
decision (the `SeedCluster` flag after the `--seed_if` override) is true,
if `ClusterSize < 2` the process hits a fatal startup error and never
begins serving, and if `ClusterSize ≥ 2` and the TLS flags pass
validation, seeding proceeds: the cluster is initialised with
`ClusterSize` and the server serves. -/
theorem c2_seed_validation_amended (o : Opts) (lk : String → Option (List String))
    (hseed : effectiveSeed o lk = true) :
    (o.clusterSize < 2 →
      (∃ m, Event.fatal m ∈ mainTrace o lk) ∧
        Event.serveGrpc ∉ mainTrace o lk) ∧
      (2 ≤ o.clusterSize → tlsOk o = true →
        Event.clusterEvent (ClusterAction.init o.clusterSize) ∈ mainTrace o lk ∧
          Event.serveGrpc ∈ mainTrace o lk) := by
  constructor
  · intro hsize
    unfold mainTrace
    split
    · exact ⟨⟨msgKeyCert, by simp⟩, by simp⟩
    · split
      · exact ⟨⟨msgCertsNeedTLS, by simp⟩, by simp⟩
      · unfold clusterPhase
        rw [if_pos hseed, if_pos hsize]
        exact ⟨⟨msgClusterSize, by simp⟩, by simp⟩
  · intro hsize htls
    rw [tlsOk, Bool.and_eq_true, Bool.not_eq_true', Bool.not_eq_true'] at htls
    obtain ⟨h1, h2⟩ := htls
    unfold mainTrace
    rw [if_neg (by simp [h1]), if_neg (by simp [h2])]
    unfold clusterPhase
    rw [if_pos hseed, if_neg (by omega : ¬(o.clusterSize < 2))]
    constructor
    · exact List.mem_cons_of_mem _ (List.mem_cons_self _ _)
    · exact List.mem_cons_of_mem _
        (List.mem_cons_of_mem _ (serveGrpc_mem_afterCluster o _))

def c2WitnessOpts : Opts := { seedCluster := true, clusterSize := 0 }

theorem c2_seed_validation_amended_witness :
    effectiveSeed c2WitnessOpts (fun _ => none) = true ∧
      ((c2WitnessOpts.clusterSize < 2 →
        (∃ m, Event.fatal m ∈ mainTrace c2WitnessOpts (fun _ => none)) ∧
          Event.serveGrpc ∉ mainTrace c2WitnessOpts (fun _ => none)) ∧
        (2 ≤ c2WitnessOpts.clusterSize → tlsOk c2WitnessOpts = true →
          Event.clusterEvent (ClusterAction.init c2WitnessOpts.clusterSize) ∈
              mainTrace c2WitnessOpts (fun _ => none) ∧
            Event.serveGrpc ∈ mainTrace c2WitnessOpts (fun _ => none))) :=
  ⟨by decide, c2_seed_validation_amended c2WitnessOpts (fun _ => none) (by decide)⟩

def c4CexOpts : Opts :=
  { seedCluster := true, clusterSize := 2, clusterAddresses := "10.0.0.1" }

def c4CexLookup : String → Option (List String) := fun _ => some ["10.0.0.1"]

/-- C4 counterexample: a configuration that explicitly sets seeding and
supplies a peer cluster address which resolves successfully, yet the node
seeds a new cluster instead of joining: with `--seed_if` unset the
override of lines 75-78 never runs, `SeedCluster=true` wins and address
resolution is never consulted, contradicting the claim that such a node
seeds only when resolution of the peer addresses fails. -/
theorem c4_seed_if_resolution_counterexample :
    c4CexOpts.seedCluster = true ∧ c4CexOpts.clusterAddresses ≠ "" ∧
      c4CexLookup c4CexOpts.clusterAddresses = some ["10.0.0.1"] ∧
      Event.clusterEvent (ClusterAction.init 2) ∈ mainTrace c4CexOpts c4CexLookup ∧
      (mainTrace c4CexOpts c4CexLookup).all (fun e => !e.isJoin) = true := by
  decide

/-- C4 amended: for every startup configuration in which the `--seed_if`
value is nonempty and equals the node name (the explicit seed-if
mechanism), peer cluster addresses are supplied and the TLS flags pass
validation: when address resolution succeeds with at least one IP the node
joins the existing cluster and never seeds, and when resolution fails or
returns no IPs (and the configured cluster size is at least 2) the node
seeds a new cluster and never joins. -/
theorem c4_seed_if_resolution_amended (o : Opts)
    (lk : String → Option (List String))
    (hif : o.seedIf ≠ "") (hmatch : o.seedIf = o.nodeName)
    (haddr : o.clusterAddresses ≠ "") (htls : tlsOk o = true) :
    (∀ ips, lk o.clusterAddresses = some ips → ips ≠ [] →
      Event.clusterEvent (ClusterAction.join (o.clusterAddresses.splitOn ",")) ∈
          mainTrace o lk ∧
        (mainTrace o lk).all (fun e => !e.isInit) = true) ∧
      ((lk o.clusterAddresses = none ∨ lk o.clusterAddresses = some []) →
        2 ≤ o.clusterSize →
        Event.clusterEvent (ClusterAction.init o.clusterSize) ∈ mainTrace o lk ∧
          (mainTrace o lk).all (fun e => !e.isJoin) = true) := by
  have hcond : (o.seedIf != "" && o.seedIf == o.nodeName) = true := by
    rw [bne_iff_ne.mpr hif]
    rw [beq_iff_eq.mpr hmatch]
    rfl
  rw [tlsOk, Bool.and_eq_true, Bool.not_eq_true', Bool.not_eq_true'] at htls
  obtain ⟨h1, h2⟩ := htls
  constructor
  · intro ips hips hne
    have hseed : effectiveSeed o lk = false := by
      unfold effectiveSeed
      rw [if_pos hcond, hips]
      cases ips with
      | nil => exact absurd rfl hne
      | cons a t => rfl
    unfold mainTrace
    rw [if_neg (by simp [h1]), if_neg (by simp [h2])]
    unfold clusterPhase
    rw [if_neg (by simp [hseed]), if_pos (bne_iff_ne.mpr haddr)]
    constructor
    · exact List.mem_cons_of_mem _ (List.mem_cons_self _ _)
    · rw [List.all_cons, List.all_cons]
      refine (Bool.and_eq_true _ _).mpr ⟨rfl, (Bool.and_eq_true _ _).mpr ⟨rfl, ?_⟩⟩
      rw [List.all_eq_true]
      intro e he
      show (!e.isInit) = true
      rw [isInit_eq_false_of_isClusterEvent e
        (all_not_clusterEvent_afterCluster o _ e he)]
      rfl
  · intro hres hsize
    have hseed : effectiveSeed o lk = true := by
      unfold effectiveSeed
      rw [if_pos hcond]
      rcases hres with h | h
      · rw [h]
      · rw [h]
        rfl
    unfold mainTrace
    rw [if_neg (by simp [h1]), if_neg (by simp [h2])]
    unfold clusterPhase
    rw [if_pos hseed, if_neg (by omega : ¬(o.clusterSize < 2))]
    constructor
    · exact List.mem_cons_of_mem _ (List.mem_cons_self _ _)
    · rw [List.all_cons, List.all_cons]
      refine (Bool.and_eq_true _ _).mpr ⟨rfl, (Bool.and_eq_true _ _).mpr ⟨rfl, ?_⟩⟩
      rw [List.all_eq_true]
      intro e he
      show (!e.isJoin) = true
      rw [isJoin_eq_false_of_isClusterEvent e
        (all_not_clusterEvent_afterCluster o _ e he)]
      rfl

def c4WitnessOpts : Opts :=
  { clusterAddresses := "10.0.0.2", nodeName := "one", seedIf := "one",
    clusterSize := 3 }

theorem c4_seed_if_resolution_amended_witness :
    c4WitnessOpts.seedIf ≠ "" ∧ c4WitnessOpts.seedIf = c4WitnessOpts.nodeName ∧
      c4WitnessOpts.clusterAddresses ≠ "" ∧ tlsOk c4WitnessOpts = true ∧
      ((∀ ips, (fun _ : String => some ["10.0.0.2"]) c4WitnessOpts.clusterAddresses =
            some ips → ips ≠ [] →
        Event.clusterEvent
            (ClusterAction.join (c4WitnessOpts.clusterAddresses.splitOn ",")) ∈
            mainTrace c4WitnessOpts (fun _ => some ["10.0.0.2"]) ∧
          (mainTrace c4WitnessOpts (fun _ => some ["10.0.0.2"])).all
            (fun e => !e.isInit) = true) ∧
        (((fun _ : String => some ["10.0.0.2"]) c4WitnessOpts.clusterAddresses =
              none ∨
            (fun _ : String => some ["10.0.0.2"]) c4WitnessOpts.clusterAddresses =
              some []) →
          2 ≤ c4WitnessOpts.clusterSize →
          Event.clusterEvent (ClusterAction.init c4WitnessOpts.clusterSize) ∈
              mainTrace c4WitnessOpts (fun _ => some ["10.0.0.2"]) ∧
            (mainTrace c4WitnessOpts (fun _ => some ["10.0.0.2"])).all
              (fun e => !e.isJoin) = true)) :=
  ⟨by decide, by decide, by decide, by decide,
    c4_seed_if_resolution_amended c4WitnessOpts (fun _ => some ["10.0.0.2"])
      (by decide) (by decide) (by decide) (by decide)⟩
